import Mathlib

/-!
Shallow embedding of the content-approval application's access-control
policies and content lifecycle, translated from the Supabase SQL
migrations and the React client.

Sources embedded here:
- supabase/migrations/20250225152712_billowing_paper.sql (schema,
  handle_new_user trigger function)
- supabase/migrations/20250225153235_tight_boat.sql (final RLS
  policies and the SECURITY DEFINER is_admin helper)
- the unnamed migration adding rejection_notes / rejected_at and the
  policy "Users can update rejection notes on assigned content"
- src/pages/Dashboard.tsx (handleSubmit, handleReject, archive
  partition, UI admin check)
- src/App.tsx / src/pages/AdminDashboard.tsx (admin-route gate)
-/

namespace ContentApproval

/-- auth.uid(): principal identifiers, modelled as naturals. -/
abbrev UUID := Nat

/-- timestamptz values, modelled as milliseconds since epoch. -/
abbrev Timestamp := Nat

/-- A row of the profiles table (migration 20250225152712):
id, email, full_name, is_admin (timestamps omitted: no embedded
operation reads them). -/
structure Profile where
  id : UUID
  email : String
  full_name : Option String
  is_admin : Bool
  deriving Repr, DecidableEq

/-- A row of the content_items table, including the rejection_notes
and rejected_at columns added by the later migration. created_by and
assigned_to are nullable references. -/
structure ContentItem where
  id : UUID
  title : Option String
  caption : String
  content_type : String
  media_url : String
  status : String
  schedule_date : Timestamp
  rejection_notes : Option String
  rejected_at : Option Timestamp
  created_by : Option UUID
  assigned_to : Option UUID
  deriving Repr, DecidableEq

/-- The database state: the two tables. -/
structure DB where
  profiles : List Profile
  content_items : List ContentItem
  deriving Repr, DecidableEq

/-- is_admin() from 20250225153235_tight_boat.sql: SECURITY DEFINER,
so it reads the profiles table directly, bypassing row policies:
EXISTS (SELECT 1 FROM profiles WHERE id = auth.uid() AND is_admin). -/
def is_admin (db : DB) (uid : UUID) : Bool :=
  db.profiles.any (fun p => p.id == uid && p.is_admin)

/-! ## Row-policy evaluation with explicit recursion accounting (C1)

A SELECT row policy on profiles is a boolean expression over the
candidate row and auth.uid(). A subquery against profiles that is NOT
wrapped in a SECURITY DEFINER function is itself subject to the
profiles row policies, so evaluating it re-invokes the policy on every
row it scans; we account for that with a fuel parameter.
`secdefAdminCheck` is a call to the SECURITY DEFINER is_admin(), which
reads the table directly and consumes no fuel;
`subqueryAdminCheck` is the inlined
EXISTS (SELECT 1 FROM profiles WHERE id = auth.uid() AND is_admin)
of the earlier migrations, evaluated under row security. -/
inductive PolicyExpr where
  | idEqUid : PolicyExpr
  | secdefAdminCheck : PolicyExpr
  | subqueryAdminCheck : PolicyExpr
  | orE : PolicyExpr → PolicyExpr → PolicyExpr
  deriving Repr, DecidableEq

mutual

/-- Evaluate policy expression `e` for `row` under the active profiles
policy `pol`; `fuel` bounds the depth of policy re-invocation. -/
def evalPolicy (fuel : Nat) (e : PolicyExpr) (pol : PolicyExpr) (db : DB)
    (uid : UUID) (row : Profile) : Option Bool :=
  match e with
  | .idEqUid => some (row.id == uid)
  | .secdefAdminCheck => some (is_admin db uid)
  | .subqueryAdminCheck =>
    match fuel with
    | 0 => none
    | f + 1 =>
      match visibleRows f pol db uid db.profiles with
      | none => none
      | some vis => some (vis.any (fun p => p.id == uid && p.is_admin))
  | .orE a b =>
    match evalPolicy fuel a pol db uid row, evalPolicy fuel b pol db uid row with
    | some x, some y => some (x || y)
    | _, _ => none
termination_by (fuel, 0, sizeOf e)

/-- The rows of a policy-filtered scan of profiles: each candidate row
passes through the active profiles policy `pol`. -/
def visibleRows (fuel : Nat) (pol : PolicyExpr) (db : DB) (uid : UUID)
    (l : List Profile) : Option (List Profile) :=
  match l with
  | [] => some []
  | p :: ps =>
    match evalPolicy fuel pol pol db uid p, visibleRows fuel pol db uid ps with
    | some true, some vis => some (p :: vis)
    | some false, some vis => some vis
    | _, _ => none
termination_by (fuel, 1, sizeOf l)

end

/-- The profiles SELECT policies of the final migration
(20250225153235): "Allow users to read own profile" USING
(id = auth.uid()) OR "Allow admins to read all profiles" USING
(is_admin()), the latter a SECURITY DEFINER call. -/
def tightBoatProfilesPolicy : PolicyExpr :=
  .orE .idEqUid .secdefAdminCheck

/-! ## Final RLS policies as direct predicates -/

/-- profiles SELECT: "Allow users to read own profile"
USING (id = auth.uid()) OR "Allow admins to read all profiles"
USING (is_admin()). -/
def canReadProfile (db : DB) (uid : UUID) (p : Profile) : Bool :=
  p.id == uid || is_admin db uid

/-- content_items SELECT: "Allow users to read assigned content"
USING (assigned_to = auth.uid() OR is_admin()). A NULL assigned_to
compares as not-equal. -/
def contentSelectPolicy (db : DB) (uid : UUID) (c : ContentItem) : Bool :=
  (match c.assigned_to with
   | some a => a == uid
   | none => false) || is_admin db uid

/-- The rows of content_items visible to `uid` through the SELECT
policy. -/
def readableContent (db : DB) (uid : UUID) : List ContentItem :=
  db.content_items.filter (contentSelectPolicy db uid)

/-- content_items INSERT: "Allow admins to create content"
WITH CHECK (is_admin()). -/
def contentInsertPolicy (db : DB) (uid : UUID) : Bool :=
  is_admin db uid

/-- content_items UPDATE: "Allow content management"
USING (assigned_to = auth.uid() OR is_admin()). -/
def contentManagementPolicy (db : DB) (uid : UUID) (c : ContentItem) : Bool :=
  (match c.assigned_to with
   | some a => a == uid
   | none => false) || is_admin db uid

/-- content_items UPDATE: "Users can update rejection notes on
assigned content" USING (auth.uid() = assigned_to)
WITH CHECK (auth.uid() = assigned_to), from the unnamed migration. -/
def rejectionNotesPolicy (uid : UUID) (c : ContentItem) : Bool :=
  match c.assigned_to with
  | some a => uid == a
  | none => false

/-- Permissive policies combine disjunctively: an UPDATE touches a row
iff some policy's USING clause passes. -/
def contentUpdateAllowed (db : DB) (uid : UUID) (c : ContentItem) : Bool :=
  contentManagementPolicy db uid c || rejectionNotesPolicy uid c

/-! ## Server-side INSERT (schema 20250225152712 + INSERT policy) -/

/-- CHECK (content_type IN ('Post', 'Story', 'Reel', 'TikTok')). -/
def validContentType (t : String) : Bool :=
  t == "Post" || t == "Story" || t == "Reel" || t == "TikTok"

/-- CHECK (status IN ('Approved', 'Rejected', 'Pending')). -/
def validStatus (s : String) : Bool :=
  s == "Approved" || s == "Rejected" || s == "Pending"

/-- An INSERT payload; `status = none` means the column was omitted,
in which case the schema default applies. -/
structure InsertRequest where
  title : Option String
  caption : String
  content_type : String
  media_url : String
  status : Option String
  schedule_date : Timestamp
  created_by : Option UUID
  assigned_to : Option UUID
  deriving Repr, DecidableEq

/-- The status the server stores: the supplied value, or the column
default 'Pending' when none is supplied (status text DEFAULT
'Pending'). The schema does not overwrite a supplied value. -/
def storedStatus (req : InsertRequest) : String :=
  req.status.getD "Pending"

/-- Server-side INSERT into content_items by principal `uid`: the RLS
WITH CHECK (is_admin()) must pass and the check constraints must hold;
otherwise the statement fails (`none`). -/
def insertContent (db : DB) (uid : UUID) (newId : UUID)
    (req : InsertRequest) : Option DB :=
  if contentInsertPolicy db uid then
    if validContentType req.content_type && validStatus (storedStatus req) then
      some { db with content_items := db.content_items ++
        [{ id := newId
           title := req.title
           caption := req.caption
           content_type := req.content_type
           media_url := req.media_url
           status := storedStatus req
           schedule_date := req.schedule_date
           rejection_notes := none
           rejected_at := none
           created_by := req.created_by
           assigned_to := req.assigned_to }] }
    else none
  else none

/-! ## Client operations (Dashboard.tsx / AdminDashboard.tsx) -/

/-- The creation form state of Dashboard.tsx (title, caption,
content_type, media_url, schedule_date, assigned_to). -/
structure FormData where
  title : String
  caption : String
  content_type : String
  media_url : String
  schedule_date : Timestamp
  assigned_to : Option UUID
  deriving Repr, DecidableEq

/-- The payload handleSubmit sends: the spread form data plus
created_by: profile?.id and status: 'Pending' (the client always
supplies 'Pending' explicitly). -/
def clientInsertPayload (profileId : Option UUID) (form : FormData) :
    InsertRequest :=
  { title := some form.title
    caption := form.caption
    content_type := form.content_type
    media_url := form.media_url
    status := some "Pending"
    schedule_date := form.schedule_date
    created_by := profileId
    assigned_to := form.assigned_to }

/-- handleSubmit (Dashboard.tsx): if no assignee is selected, alert
and send nothing; otherwise insert the client payload. -/
def handleSubmit (db : DB) (uid : UUID) (newId : UUID) (form : FormData) :
    Option DB :=
  match form.assigned_to with
  | none => some db
  | some _ => insertContent db uid newId (clientInsertPayload (some uid) form)

/-- The field updates of the reject request: status: 'Rejected',
rejection_notes: rejectionNotes, rejected_at: new Date().toISOString(). -/
def rejectFields (notes : String) (now : Timestamp) (c : ContentItem) :
    ContentItem :=
  { c with status := "Rejected"
           rejection_notes := some notes
           rejected_at := some now }

/-- A single-statement UPDATE of content_items WHERE id = itemId by
principal `uid`: each row passing the WHERE clause and some policy's
USING clause is rewritten by `f`; the statement errors (`none`) if a
rewritten row fails every policy's check clause. -/
def applyContentUpdate (db : DB) (uid : UUID) (itemId : UUID)
    (f : ContentItem → ContentItem) : Option DB :=
  if (db.content_items.filter
        (fun c => c.id == itemId && contentUpdateAllowed db uid c)).all
      (fun c => contentUpdateAllowed db uid (f c)) then
    some { db with content_items := db.content_items.map (fun c =>
      if c.id == itemId && contentUpdateAllowed db uid c then f c else c) }
  else none

/-- JavaScript String.prototype.trim: strip whitespace from both ends
of the string, modelled over the character list. -/
def jsTrim (s : String) : String :=
  ⟨((s.data.dropWhile Char.isWhitespace).reverse.dropWhile
      Char.isWhitespace).reverse⟩

/-- handleReject (Dashboard.tsx): if no item is pending rejection or
the notes are empty after trimming (rejectionNotes.trim() is falsy),
return without sending anything; otherwise send one UPDATE setting the
rejection fields on the item. -/
def handleReject (db : DB) (uid : UUID) (rejectingItemId : Option UUID)
    (notes : String) (now : Timestamp) : Option DB :=
  match rejectingItemId with
  | none => some db
  | some itemId =>
    if jsTrim notes = "" then some db
    else applyContentUpdate db uid itemId (rejectFields notes now)

/-! ## Archive partition (Dashboard.tsx) -/

/-- Milliseconds per day, for the start-of-day floor. -/
def msPerDay : Nat := 86400000

/-- startOfDay: floor a timestamp to the start of its (local) day. -/
def startOfDay (t : Timestamp) : Timestamp :=
  t / msPerDay * msPerDay

/-- isBefore(startOfDay(parseISO(item.schedule_date)), today): the
archive test applied to an item, with today = startOfDay(now). -/
def isArchived (now : Timestamp) (c : ContentItem) : Bool :=
  startOfDay c.schedule_date < startOfDay now

/-- The contentItems.reduce of Dashboard.tsx: partition the fetched
items into (currentContent, archivedContent), pushing each item onto
the archived list when its start-of-day is before today, otherwise
onto the current list. -/
def partitionContent (items : List ContentItem) (now : Timestamp) :
    List ContentItem × List ContentItem :=
  items.foldl
    (fun acc item =>
      if isArchived now item then (acc.1, acc.2 ++ [item])
      else (acc.1 ++ [item], acc.2))
    ([], [])

/-! ## New-user hook (handle_new_user, 20250225152712) -/

/-- A row of auth.users as seen by the trigger: id, email, and the
full_name key of raw_user_meta_data. -/
structure AuthUser where
  id : UUID
  email : String
  raw_full_name : Option String
  deriving Repr, DecidableEq

/-- The hardcoded bootstrap admin address in handle_new_user. -/
def bootstrapAdminEmail : String := "geral@stagelink.pt"

/-- handle_new_user(): AFTER INSERT ON auth.users, insert one profile
row with is_admin := (new.email = 'geral@stagelink.pt'). -/
def handle_new_user (db : DB) (u : AuthUser) : DB :=
  { db with profiles := db.profiles ++
      [{ id := u.id
         email := u.email
         full_name := u.raw_full_name
         is_admin := u.email == bootstrapAdminEmail }] }

/-! ## UI admin checks (Dashboard.tsx line 45, AdminDashboard.tsx) -/

/-- Dashboard.tsx: const isAdmin = profile?.email ===
'geral@stagelink.pt'. -/
def uiIsAdmin (profile : Option Profile) : Bool :=
  match profile with
  | some p => p.email == "geral@stagelink.pt"
  | none => false

/-- AdminDashboard.tsx: the page renders Access Denied unless
profile?.email === 'geral@stagelink.pt'. -/
def adminDashboardAllowed (profile : Option Profile) : Bool :=
  match profile with
  | some p => p.email == "geral@stagelink.pt"
  | none => false

/-! ## Theorems -/

/-- C1: under the final migration's profiles policies, evaluating the
profile-read policy succeeds for every database, principal and row
with zero policy re-invocations (fuel 0 already suffices): the admin
check is the SECURITY DEFINER is_admin(), a single direct lookup of
profiles that never re-invokes the profiles row policy, so every
profile-read policy evaluation terminates. -/
theorem c1_profile_policy_no_recursion (fuel : Nat) (db : DB) (uid : UUID)
    (row : Profile) :
    evalPolicy fuel tightBoatProfilesPolicy tightBoatProfilesPolicy db uid row
      = some (row.id == uid || is_admin db uid) := by
  simp [evalPolicy, tightBoatProfilesPolicy]

/-- C2: a principal reads a content item through the SELECT policy iff
the item is assigned to it or the principal's profile row has the
admin flag set. -/
theorem c2_read_content_iff (db : DB) (uid : UUID) (c : ContentItem) :
    c ∈ readableContent db uid ↔
      c ∈ db.content_items ∧
        (c.assigned_to = some uid ∨
          ∃ p ∈ db.profiles, p.id = uid ∧ p.is_admin = true) := by
  rw [readableContent, List.mem_filter]
  cases h : c.assigned_to <;>
    simp [contentSelectPolicy, is_admin, h, List.any_eq_true]

/-- C7: a principal always reads its own profile row, and it reads a
profile row iff the row is its own or its profile has the admin flag
set. -/
theorem c7_profile_read (db : DB) (uid : UUID) (q : Profile) :
    (q.id = uid → canReadProfile db uid q = true)
    ∧ (canReadProfile db uid q = true ↔
        (q.id = uid ∨ is_admin db uid = true)) := by
  simp [canReadProfile]
  tauto

/-- C7 witness: with an empty database, principal 5 reads its own
profile row. -/
theorem c7_profile_read_witness :
    canReadProfile (DB.mk [] []) 5 (Profile.mk 5 "a@b" none false) = true :=
  (c7_profile_read (DB.mk [] []) 5 (Profile.mk 5 "a@b" none false)).1 rfl

/-- C6: combining the two permissive UPDATE policies, an update of a
content item is permitted iff the principal is the assignee or an
admin; the narrower rejection-notes policy permits exactly the
assignee. -/
theorem c6_update_allowed_iff (db : DB) (uid : UUID) (c : ContentItem) :
    (contentUpdateAllowed db uid c = true ↔
        (c.assigned_to = some uid ∨ is_admin db uid = true))
    ∧ (rejectionNotesPolicy uid c = true ↔ c.assigned_to = some uid) := by
  cases h : c.assigned_to <;>
    simp [contentUpdateAllowed, contentManagementPolicy,
      rejectionNotesPolicy, h]
  tauto

/-- C9: handle_new_user inserts exactly one profile row, carrying the
new user's id, email and full_name, whose admin flag is true iff the
email equals the hardcoded bootstrap address; no other table
changes. -/
theorem c9_handle_new_user (db : DB) (u : AuthUser) :
    (∃ p, (handle_new_user db u).profiles = db.profiles ++ [p]
        ∧ p.id = u.id ∧ p.email = u.email ∧ p.full_name = u.raw_full_name
        ∧ (p.is_admin = true ↔ u.email = bootstrapAdminEmail))
    ∧ (handle_new_user db u).content_items = db.content_items := by
  refine ⟨⟨_, rfl, rfl, rfl, rfl, ?_⟩, rfl⟩
  simp [beq_iff_eq]

/-- C10: the client UI decides admin treatment by comparing the
profile email to the hardcoded address: a profile with the admin flag
set but a different email is treated as non-admin by both the
dashboard check and the admin-dashboard gate, and both checks depend
only on the email field. -/
theorem c10_ui_admin_by_email (p q : Profile) :
    (p.is_admin = true → p.email ≠ "geral@stagelink.pt" →
        uiIsAdmin (some p) = false ∧ adminDashboardAllowed (some p) = false)
    ∧ (p.email = q.email →
        uiIsAdmin (some p) = uiIsAdmin (some q)
          ∧ adminDashboardAllowed (some p) = adminDashboardAllowed (some q)) := by
  constructor
  · intro _ hne
    simp [uiIsAdmin, adminDashboardAllowed, hne]
  · intro he
    simp [uiIsAdmin, adminDashboardAllowed, he]

/-- C10 witness: the profile with id 1, email x@y and the admin flag
set is treated as non-admin by both UI checks. -/
theorem c10_ui_admin_by_email_witness :
    uiIsAdmin (some (Profile.mk 1 "x@y" none true)) = false
      ∧ adminDashboardAllowed (some (Profile.mk 1 "x@y" none true)) = false :=
  (c10_ui_admin_by_email (Profile.mk 1 "x@y" none true)
    (Profile.mk 1 "x@y" none true)).1 rfl (by decide)

/-- The archive reduce, generalised over the accumulator: the fold
appends the non-archived items to the first component and the
archived items to the second, in order. -/
theorem partitionContent_foldl (now : Timestamp) (items : List ContentItem)
    (cur arch : List ContentItem) :
    items.foldl
      (fun acc item =>
        if isArchived now item then (acc.1, acc.2 ++ [item])
        else (acc.1 ++ [item], acc.2))
      (cur, arch)
      = (cur ++ items.filter (fun c => !isArchived now c),
         arch ++ items.filter (fun c => isArchived now c)) := by
  induction items generalizing cur arch with
  | nil => simp
  | cons x xs ih =>
    by_cases h : isArchived now x = true <;>
      simp [List.foldl_cons, List.filter_cons, h, ih, List.append_assoc]

/-- C8: the dashboard partition classifies an item as archived iff the
start of its schedule day is strictly before the start of the current
day, and otherwise as current; the partition is a pure function of the
fetched items and the current time, and every item lands in exactly
one of the two lists. -/
theorem c8_archive_partition (items : List ContentItem) (now : Timestamp) :
    (partitionContent items now).1
        = items.filter (fun c => !isArchived now c)
    ∧ (partitionContent items now).2
        = items.filter (fun c => isArchived now c)
    ∧ (∀ c, isArchived now c = true ↔
        startOfDay c.schedule_date < startOfDay now)
    ∧ (∀ c, c ∈ (partitionContent items now).2 ↔
        c ∈ items ∧ startOfDay c.schedule_date < startOfDay now)
    ∧ (∀ c, c ∈ (partitionContent items now).1 ↔
        c ∈ items ∧ ¬ startOfDay c.schedule_date < startOfDay now) := by
  have hfold := partitionContent_foldl now items [] []
  refine ⟨?_, ?_, ?_, ?_, ?_⟩
  · rw [partitionContent, hfold]
    simp
  · rw [partitionContent, hfold]
    simp
  · intro c
    simp [isArchived]
  · intro c
    rw [partitionContent, hfold]
    simp [List.mem_filter, isArchived]
  · intro c
    rw [partitionContent, hfold]
    simp [List.mem_filter, isArchived]

/-- C4: rejecting with notes that trim to empty sends no update and
leaves the database unchanged; rejecting with non-trivial notes issues
the single update statement that, on every permitted row with the
target id, sets status to Rejected, rejection_notes to the supplied
notes, and rejected_at to the time of the call, leaving every other
row and field unchanged. -/
theorem c4_reject_requires_notes (db : DB) (uid iid : UUID) (notes : String)
    (now : Timestamp) :
    (jsTrim notes = "" → handleReject db uid (some iid) notes now = some db)
    ∧ (∀ db2, jsTrim notes ≠ "" →
        handleReject db uid (some iid) notes now = some db2 →
        db2.content_items = db.content_items.map (fun c =>
          if c.id == iid && contentUpdateAllowed db uid c then
            { c with status := "Rejected"
                     rejection_notes := some notes
                     rejected_at := some now }
          else c)
        ∧ db2.profiles = db.profiles) := by
  constructor
  · intro h
    simp [handleReject, h]
  · intro db2 hne h2
    rw [handleReject, if_neg hne, applyContentUpdate] at h2
    split at h2
    · cases h2
      exact ⟨rfl, rfl⟩
    · cases h2

/-- C4 witness: with item 7 assigned to principal 1, rejecting with
whitespace-only notes leaves the database unchanged, and rejecting
with notes "fix" rewrites exactly the permitted target row. -/
theorem c4_reject_requires_notes_witness :
    handleReject
        (DB.mk [Profile.mk 1 "u@x" none false]
          [ContentItem.mk 7 none "cap" "Post" "m" "Pending" 0 none none
            (some 2) (some 1)])
        1 (some 7) "   " 5
      = some (DB.mk [Profile.mk 1 "u@x" none false]
          [ContentItem.mk 7 none "cap" "Post" "m" "Pending" 0 none none
            (some 2) (some 1)])
    ∧ ((DB.mk [Profile.mk 1 "u@x" none false]
          [ContentItem.mk 7 none "cap" "Post" "m" "Rejected" 0 (some "fix")
            (some 5) (some 2) (some 1)]).content_items
        = (DB.mk [Profile.mk 1 "u@x" none false]
            [ContentItem.mk 7 none "cap" "Post" "m" "Pending" 0 none none
              (some 2) (some 1)]).content_items.map (fun c =>
          if c.id == 7 && contentUpdateAllowed
              (DB.mk [Profile.mk 1 "u@x" none false]
                [ContentItem.mk 7 none "cap" "Post" "m" "Pending" 0 none none
                  (some 2) (some 1)]) 1 c then
            { c with status := "Rejected"
                     rejection_notes := some "fix"
                     rejected_at := some 5 }
          else c)) :=
  ⟨(c4_reject_requires_notes
      (DB.mk [Profile.mk 1 "u@x" none false]
        [ContentItem.mk 7 none "cap" "Post" "m" "Pending" 0 none none
          (some 2) (some 1)]) 1 7 "   " 5).1 (by decide),
   ((c4_reject_requires_notes
      (DB.mk [Profile.mk 1 "u@x" none false]
        [ContentItem.mk 7 none "cap" "Post" "m" "Pending" 0 none none
          (some 2) (some 1)]) 1 7 "fix" 5).2
      (DB.mk [Profile.mk 1 "u@x" none false]
        [ContentItem.mk 7 none "cap" "Post" "m" "Rejected" 0 (some "fix")
          (some 5) (some 2) (some 1)])
      (by decide) (by decide)).1⟩

/-- C5: an insert by a principal whose profile lacks the admin flag
always fails, and for a payload passing the check constraints the
insert succeeds iff the principal's profile has the admin flag set. -/
theorem c5_insert_requires_admin (db : DB) (uid newId : UUID)
    (req : InsertRequest) :
    (is_admin db uid = false → insertContent db uid newId req = none)
    ∧ (validContentType req.content_type = true →
        validStatus (storedStatus req) = true →
        ((∃ db2, insertContent db uid newId req = some db2) ↔
          is_admin db uid = true)) := by
  constructor
  · intro h
    simp [insertContent, contentInsertPolicy, h]
  · intro h1 h2
    by_cases ha : is_admin db uid = true <;>
      simp [insertContent, contentInsertPolicy, ha, h1, h2]

/-- C5 witness: with the bootstrap admin as profile 1, the non-admin
principal 2 fails to insert, and the insert of a valid payload
succeeds exactly for the admin principal 1. -/
theorem c5_insert_requires_admin_witness :
    insertContent (DB.mk [Profile.mk 1 "geral@stagelink.pt" none true] [])
        2 9 (InsertRequest.mk none "c" "Post" "m" none 0 (some 1) (some 1))
      = none
    ∧ ((∃ db2,
          insertContent (DB.mk [Profile.mk 1 "geral@stagelink.pt" none true] [])
            1 9 (InsertRequest.mk none "c" "Post" "m" none 0 (some 1) (some 1))
          = some db2) ↔
        is_admin (DB.mk [Profile.mk 1 "geral@stagelink.pt" none true] []) 1
          = true) :=
  ⟨(c5_insert_requires_admin
      (DB.mk [Profile.mk 1 "geral@stagelink.pt" none true] []) 2 9
      (InsertRequest.mk none "c" "Post" "m" none 0 (some 1) (some 1))).1
      (by decide),
   (c5_insert_requires_admin
      (DB.mk [Profile.mk 1 "geral@stagelink.pt" none true] []) 1 9
      (InsertRequest.mk none "c" "Post" "m" none 0 (some 1) (some 1))).2
      (by decide) (by decide)⟩

/-- A database holding only the bootstrap admin profile. -/
def c3db : DB :=
  DB.mk [Profile.mk 1 "geral@stagelink.pt" none true] []

/-- An insert payload that supplies status 'Approved' explicitly. -/
def c3reqApproved : InsertRequest :=
  InsertRequest.mk none "c" "Post" "m" (some "Approved") 0 (some 1) (some 1)

/-- C3 counterexample: the admin principal 1 inserts a payload
carrying status 'Approved' and the server stores 'Approved', not
'Pending': the schema only defaults the column, it does not force a
supplied value, so no server-side forcing exists. -/
theorem c3_counterexample :
    is_admin c3db 1 = true
    ∧ (insertContent c3db 1 9 c3reqApproved).map
        (fun db2 => db2.content_items.map (fun c => c.status))
      = some ["Approved"] := by
  decide

/-- C3 amended: every insert issued through the application client
carries status 'Pending' (the client sets it explicitly), and the
server defaults the status to 'Pending' exactly when the payload omits
it; a stored row therefore has status Pending for every
client-originated insert, but the forcing is client-side, with the
server contributing only the column default. -/
theorem c3_client_insert_pending (uid newId : UUID) (form : FormData)
    (db : DB) (req : InsertRequest) :
    ((clientInsertPayload (some uid) form).status = some "Pending")
    ∧ (req.status = none → ∀ db2, insertContent db uid newId req = some db2 →
        db2.content_items.map (fun c => c.status)
          = db.content_items.map (fun c => c.status) ++ ["Pending"]) := by
  constructor
  · rfl
  · intro hnone db2 h2
    rw [insertContent] at h2
    split at h2
    · split at h2
      · cases h2
        simp [storedStatus, hnone]
      · cases h2
    · cases h2

/-- C3 witness: for a concrete form the client payload carries status
'Pending', and a concrete insert omitting status stores 'Pending'. -/
theorem c3_client_insert_pending_witness :
    (clientInsertPayload (some 1)
        (FormData.mk "t" "c" "Post" "m" 0 (some 1))).status = some "Pending"
    ∧ (DB.mk [Profile.mk 1 "geral@stagelink.pt" none true]
          [ContentItem.mk 9 none "c" "Post" "m" "Pending" 0 none none
            (some 1) (some 1)]).content_items.map (fun c => c.status)
        = c3db.content_items.map (fun c => c.status) ++ ["Pending"] :=
  ⟨(c3_client_insert_pending 1 9 (FormData.mk "t" "c" "Post" "m" 0 (some 1))
      c3db (InsertRequest.mk none "c" "Post" "m" none 0 (some 1) (some 1))).1,
   (c3_client_insert_pending 1 9 (FormData.mk "t" "c" "Post" "m" 0 (some 1))
      c3db (InsertRequest.mk none "c" "Post" "m" none 0 (some 1) (some 1))).2
      rfl
      (DB.mk [Profile.mk 1 "geral@stagelink.pt" none true]
        [ContentItem.mk 9 none "c" "Post" "m" "Pending" 0 none none
          (some 1) (some 1)])
      (by decide)⟩

end ContentApproval
